import Mathlib

/-!
Shallow embedding of `scripts/pyre_incremental_test/runner.py`.

Python values appearing in checker JSON output are modelled by `PyValue`
(ints and strings suffice for every operation the runner performs on them).
Python exceptions relevant to the runner are modelled by `PyExc`; fallible
Python code becomes `Except PyExc _`.  Python `Dict[str, Any]` inputs become
association lists `List (String × PyValue)`; `Mapping[str, int]` profile
records become `List (String × Int)`.
-/

namespace PyreRunnerSpec

instance {ε α : Type} [DecidableEq ε] [DecidableEq α] : DecidableEq (Except ε α) := fun x y =>
  match x, y with
  | .ok a, .ok b =>
    if h : a = b then .isTrue (by rw [h]) else .isFalse (fun hh => h (Except.ok.inj hh))
  | .error a, .error b =>
    if h : a = b then .isTrue (by rw [h]) else .isFalse (fun hh => h (Except.error.inj hh))
  | .ok _, .error _ => .isFalse (fun hh => Except.noConfusion hh)
  | .error _, .ok _ => .isFalse (fun hh => Except.noConfusion hh)

/-- A Python value as it appears in the runner's parsed JSON input. -/
inductive PyValue where
  | int (n : Int)
  | str (s : String)
deriving DecidableEq, Repr

/-- The Python exceptions the runner can raise or observe.
`keyError` models `KeyError` from a missing dict key; `valueError` models
`ValueError` from a failed `int(...)` conversion; `malformedPyreOutput`
models `MalformedPyreOutputException` (runner.py lines 18-19, 38-41);
`fatalProcessError` models the process gateway's unexpected-exit-code
failure; `jsonError` models a `json.loads` failure on non-JSON output. -/
inductive PyExc where
  | keyError (key : String)
  | valueError
  | malformedPyreOutput (key : String)
  | fatalProcessError
  | jsonError
deriving DecidableEq, Repr

/-- Accumulate a decimal-digit run; `none` as soon as a non-digit appears. -/
def parseDigits : List Char → Nat → Option Nat
  | [], acc => some acc
  | c :: cs, acc =>
    if c.isDigit then parseDigits cs (acc * 10 + (c.toNat - 48)) else none

/-- Python `int(s)` on a string: an optional sign followed by a nonempty
run of decimal digits denotes that integer; anything else is `none`
(standing for `ValueError`). -/
def strToInt (s : String) : Option Int :=
  match s.data with
  | [] => none
  | c :: cs =>
    if c = '-' then
      if cs = [] then none else (parseDigits cs 0).map (fun n => -(n : Int))
    else if c = '+' then
      if cs = [] then none else (parseDigits cs 0).map (fun n => (n : Int))
    else
      (parseDigits (c :: cs) 0).map (fun n => (n : Int))

/-- Python `int(v)`: an int is returned unchanged; a string is parsed as a
decimal integer, raising `ValueError` if it does not denote one
(runner.py lines 33-34 apply this to the `line` and `column` values). -/
def pyInt : PyValue → Except PyExc Int
  | .int n => .ok n
  | .str s =>
    match strToInt s with
    | some n => .ok n
    | none => .error .valueError

/-- Python `d[key]` on a string-keyed dict: the stored value, or `KeyError`
when the key is absent. -/
def lookupPy (d : List (String × PyValue)) (key : String) : Except PyExc PyValue :=
  match d.lookup key with
  | some v => .ok v
  | none => .error (.keyError key)

/-- The `PyreError` dataclass (runner.py lines 22-27): `line` and `column`
are ints (coerced by `int(...)` in `from_json`); `path` and `description`
are stored as whatever value the JSON record held. -/
structure PyreError where
  line : Int
  column : Int
  path : PyValue
  description : PyValue
deriving DecidableEq, Repr

/-- The body of the `try:` block of `PyreError.from_json` (runner.py lines
32-37): evaluate `int(input_json["line"])`, `int(input_json["column"])`,
`input_json["path"]`, `input_json["description"]` in that order, the order
Python evaluates the keyword arguments. -/
def fromJsonBody (d : List (String × PyValue)) : Except PyExc PyreError :=
  match lookupPy d "line" with
  | .error e => .error e
  | .ok lv =>
    match pyInt lv with
    | .error e => .error e
    | .ok lineVal =>
      match lookupPy d "column" with
      | .error e => .error e
      | .ok cv =>
        match pyInt cv with
        | .error e => .error e
        | .ok columnVal =>
          match lookupPy d "path" with
          | .error e => .error e
          | .ok pathVal =>
            match lookupPy d "description" with
            | .error e => .error e
            | .ok descVal =>
              .ok { line := lineVal, column := columnVal,
                    path := pathVal, description := descVal }

/-- `PyreError.from_json` (runner.py lines 29-41): run the body; a
`KeyError` is caught and re-raised as `MalformedPyreOutputException`
carrying the missing key; every other exception (in particular the
`ValueError` of a failed int conversion) propagates unchanged. -/
def PyreError.from_json (d : List (String × PyValue)) : Except PyExc PyreError :=
  match fromJsonBody d with
  | .error (.keyError k) => .error (.malformedPyreOutput k)
  | r => r

/-- Whether a `from_json` result is the malformed-output error. -/
def isMalformed : Except PyExc PyreError → Bool
  | .error (.malformedPyreOutput _) => true
  | _ => false

/-! ### Process gateway and checker runs -/

/-- The result of one external process run, as consumed by the runner.
`return_code` is the process exit code.  `stdout` is the parse of standard
output as a JSON array of objects: `some arr` when it is one, `none` when
standard output is not such an array (so that `json.loads` / iteration
would fail). -/
structure ProcessOutput where
  return_code : Int
  stdout : Option (List (List (String × PyValue)))
deriving DecidableEq, Repr

/-- Modelled from the spec: the process gateway's `checked_run`
(`environment.py` is not part of the sources; §6 gives its contract:
`run(working_directory, command_string) -> {return_code, stdout}`, failing
fatally unless the return code is in a caller-supplied set of expected
codes). -/
def checked_run (expected_return_codes : List Int) (out : ProcessOutput) :
    Except PyExc ProcessOutput :=
  if out.return_code ∈ expected_return_codes then .ok out else .error .fatalProcessError

/-- Modelled from the spec: `checked_run` with the gateway's default
expected-code set, which §6 states is exit 0 only. -/
def checked_run_default (out : ProcessOutput) : Except PyExc ProcessOutput :=
  checked_run [0] out

/-- The list comprehension `[PyreError.from_json(x) for x in json.loads(...)]`
(runner.py lines 92 and 130): convert each element in array order,
propagating the first exception raised. -/
def mapFromJson : List (List (String × PyValue)) → Except PyExc (List PyreError)
  | [] => .ok []
  | x :: xs =>
    match PyreError.from_json x with
    | .error e => .error e
    | .ok err =>
      match mapFromJson xs with
      | .error e => .error e
      | .ok errs => .ok (err :: errs)

/-- Shared body of `PyreRunner.run_check` (runner.py lines 84-92) and
`PyreRunner.run_incremental` (lines 122-130), abstracted over the process
output: run the command with expected return codes `(0, 1)`; on exit code
0 return `[]` without touching standard output; otherwise parse standard
output as a JSON array and map `PyreError.from_json` over it in order. -/
def runCheckOutput (out : ProcessOutput) : Except PyExc (List PyreError) :=
  match checked_run [0, 1] out with
  | .error e => .error e
  | .ok o =>
    if o.return_code = 0 then
      .ok []
    else
      match o.stdout with
      | none => .error .jsonError
      | some arr => mapFromJson arr

/-- `PyreRunner.run_check` (runner.py lines 77-92), given the process
output of the issued `check` command. -/
def PyreRunner.run_check (out : ProcessOutput) : Except PyExc (List PyreError) :=
  runCheckOutput out

/-- `PyreRunner.run_incremental` (runner.py lines 114-130), given the
process output of the issued `incremental` command; its output handling is
identical to `run_check`'s. -/
def PyreRunner.run_incremental (out : ProcessOutput) : Except PyExc (List PyreError) :=
  runCheckOutput out

/-! ### The update driver -/

/-- A profile record: Python `Mapping[str, int]`. -/
abbrev ProfileRecord := List (String × Int)

/-- One observable action of `PyreRunner.update` (runner.py lines 63-75):
applying mutation step `i` to the sandbox (`update.update(...)`, line 68),
fetching the `incremental_updates` profile sequence (line 70), or
`sleep(1)` (line 74). -/
inductive UEvent where
  | applyStep (i : Nat)
  | poll (result : List ProfileRecord)
  | sleepOne
deriving DecidableEq, Repr

/-- The inner `while True` loop of `PyreRunner.update` (runner.py lines
69-74) for step index `expected`, consuming successive responses of the
`incremental_updates` profiling endpoint: fetch; if the fetched length
exceeds `expected`, break; else sleep one unit and fetch again.  Returns
the logs in hand at the break, the unconsumed responses, and the events,
or `none` when the response stream is exhausted (the real loop would still
be polling: it has no timeout). -/
def pollLoop (expected : Nat) :
    List (List ProfileRecord) →
    Option (List ProfileRecord × List (List ProfileRecord) × List UEvent)
  | [] => none
  | p :: rest =>
    if expected < p.length then
      some (p, rest, [UEvent.poll p])
    else
      match pollLoop expected rest with
      | some (logs, rem, evs) => some (logs, rem, UEvent.poll p :: UEvent.sleepOne :: evs)
      | none => none

/-- The body of `PyreRunner.update` from step index `expected` on, with
`steps` mutation steps still to process: apply the step, then run the poll
loop, then continue with the next step; `logs` is the
`incremental_update_logs` variable (initially `[]`, line 64). -/
def updateGo (expected steps : Nat) (stream : List (List ProfileRecord))
    (logs : List ProfileRecord) : Option (List ProfileRecord × List UEvent) :=
  match steps with
  | 0 => some (logs, [])
  | steps' + 1 =>
    match pollLoop expected stream with
    | none => none
    | some (newLogs, rem, evs) =>
      match updateGo (expected + 1) steps' rem newLogs with
      | none => none
      | some (finalLogs, evs') =>
        some (finalLogs, (UEvent.applyStep expected :: evs) ++ evs')

/-- `PyreRunner.update` (runner.py lines 63-75) over `numSteps` mutation
steps, where `stream` lists the successive responses of the
`incremental_updates` profiling endpoint.  Returns the final
`incremental_update_logs` value together with the event trace. -/
def PyreRunner.update (numSteps : Nat) (stream : List (List ProfileRecord)) :
    Option (List ProfileRecord × List UEvent) :=
  updateGo 0 numSteps stream []

/-- The polls recorded in an event trace, in order. -/
def pollResults (evs : List UEvent) : List (List ProfileRecord) :=
  evs.filterMap (fun e => match e with | .poll r => some r | _ => none)

/-- The mutation-step applications recorded in an event trace, in order. -/
def applySteps (evs : List UEvent) : List Nat :=
  evs.filterMap (fun e => match e with | .applyStep i => some i | _ => none)

/-- The number of sleeps recorded in an event trace. -/
def sleepCount (evs : List UEvent) : Nat :=
  evs.countP (fun e => e = UEvent.sleepOne)

/-! ### Result data classes and their JSON serialization -/

/-- A JSON value, as produced by the `to_json` methods. -/
inductive Json where
  | num (n : Int)
  | str (s : String)
  | arr (elems : List Json)
  | obj (fields : List (String × Json))

/-- `InconsistentOutput` (runner.py lines 162-165). -/
structure InconsistentOutput where
  full_check_output : List PyreError
  incremental_check_output : List PyreError
deriving DecidableEq, Repr

/-- `ProfileLogs` (runner.py lines 176-179). -/
structure ProfileLogs where
  incremental_update_logs : List ProfileRecord
  cold_start_log : ProfileRecord
deriving DecidableEq, Repr

/-- `ResultComparison` (runner.py lines 191-195). -/
structure ResultComparison where
  discrepancy : Option InconsistentOutput
  full_check_time : Int
  profile_logs : ProfileLogs
deriving DecidableEq, Repr

/-- `dataclasses.asdict` on a `PyreError` value, as used by
`InconsistentOutput.to_json` (runner.py lines 169-172). -/
def PyreError.asdict (e : PyreError) : Json :=
  .obj [("line", .num e.line), ("column", .num e.column),
        ("path", match e.path with | .int n => .num n | .str s => .str s),
        ("description", match e.description with | .int n => .num n | .str s => .str s)]

/-- `InconsistentOutput.to_json` (runner.py lines 167-173). -/
def InconsistentOutput.to_json (i : InconsistentOutput) : Json :=
  .obj [("full_check_output", .arr (i.full_check_output.map PyreError.asdict)),
        ("incremental_check_output", .arr (i.incremental_check_output.map PyreError.asdict))]

/-- A profile record as a JSON object. -/
def recordJson (r : ProfileRecord) : Json :=
  .obj (r.map (fun kv => (kv.1, .num kv.2)))

/-- `ProfileLogs.to_json` (runner.py lines 181-185). -/
def ProfileLogs.to_json (pl : ProfileLogs) : Json :=
  .obj [("incremental_update_logs", .arr (pl.incremental_update_logs.map recordJson)),
        ("cold_start_log", recordJson pl.cold_start_log)]

/-- Python `log["total"]` on a profile record: the stored int, or
`KeyError` when the key is absent. -/
def lookupTotal (r : ProfileRecord) : Except PyExc Int :=
  match r.lookup "total" with
  | some v => .ok v
  | none => .error (.keyError "total")

/-- The left fold of Python `sum(...)` over a generator of `log["total"]`
values: add each looked-up total to the accumulator, raising `KeyError`
at the first record lacking `"total"`. -/
def sumTotals (acc : Int) : List ProfileRecord → Except PyExc Int
  | [] => .ok acc
  | r :: rs =>
    match lookupTotal r with
    | .error e => .error e
    | .ok t => sumTotals (acc + t) rs

/-- `ProfileLogs.total_of_totals` (runner.py lines 187-188):
`sum(log["total"] for log in self.incremental_update_logs)`. -/
def ProfileLogs.total_of_totals (pl : ProfileLogs) : Except PyExc Int :=
  sumTotals 0 pl.incremental_update_logs

/-- `ResultComparison.to_json` (runner.py lines 197-210): build the dict
`full_check_time`, `incremental_check_time` (= `total_of_totals()`),
`profile_logs`; when `dont_show_discrepancy` is false additionally insert
`discrepancy` as the string `"none"` or the serialized
`InconsistentOutput`.  The top-level dict is modelled as an insertion-order
association list; `total_of_totals` can raise, so the result is fallible. -/
def ResultComparison.to_json (rc : ResultComparison) (dont_show_discrepancy : Bool) :
    Except PyExc (List (String × Json)) :=
  match rc.profile_logs.total_of_totals with
  | .error e => .error e
  | .ok t =>
    let result : List (String × Json) :=
      [("full_check_time", .num rc.full_check_time),
       ("incremental_check_time", .num t),
       ("profile_logs", rc.profile_logs.to_json)]
    if dont_show_discrepancy then
      .ok result
    else
      .ok (result ++
        [("discrepancy",
          match rc.discrepancy with
          | none => .str "none"
          | some d => d.to_json)])

/-! ### `run_start` and its commands -/

/-- Python `str.rstrip()` with no argument: remove trailing whitespace. -/
def rstrip (s : String) : String :=
  ⟨(s.data.reverse.dropWhile Char.isWhitespace).reverse⟩

/-- The `pyre restart` command string assembled by `PyreRunner.run_start`
(runner.py lines 95-102): invocation prefix, start-time checker-global
options, the `--no-saved-state --enable-profiling` flags, the `restart`
subcommand and the start-time options, right-stripped as by
`str.rstrip()`. -/
def pyre_start_command (invocation pyre_start_pyre_options pyre_start_options : String) :
    String :=
  rstrip (invocation ++ " " ++ pyre_start_pyre_options ++ " " ++
    "--no-saved-state --enable-profiling " ++
    "restart " ++ pyre_start_options)

/-- The `pyre profile` command string assembled by `PyreRunner.run_profile`
(runner.py lines 145-147). -/
def pyre_profile_command (invocation output_kind : String) : String :=
  rstrip (invocation ++ " " ++ "profile --output=" ++ output_kind)

/-- `PyreRunner.run_start` (runner.py lines 94-106), given the process
output of the restart command and the `cold_start_phases` record the
profiling endpoint would return: issue the restart command through
`checked_run` with its default expected-code set; on success issue the
profile command and return the fetched record.  The first component lists
the commands issued, in order. -/
def PyreRunner.run_start (invocation pyre_start_pyre_options pyre_start_options : String)
    (startOut : ProcessOutput) (coldStartRecord : ProfileRecord) :
    List String × Except PyExc ProfileRecord :=
  let cmd := pyre_start_command invocation pyre_start_pyre_options pyre_start_options
  match checked_run_default startOut with
  | .error e => ([cmd], .error e)
  | .ok _ => ([cmd, pyre_profile_command invocation "cold_start_phases"],
              .ok coldStartRecord)

/-! ### The comparison protocol -/

/-- One step of `compare_server_to_full` (runner.py lines 213-245), in the
order the observable actions occur in its body:
entering the sandbox scope (`with _create_pyre_runner(...)`, line 217,
which enters `activate_sandbox`), `run_start` (line 219), `update`
(line 221), `run_incremental` (line 224), `run_stop` (line 226), the timed
`run_check` (lines 232-234), leaving the sandbox scope (the `with` block
ends after line 237), and assembling the `ResultComparison` (lines
239-245). -/
inductive PEvent where
  | sandboxOpen
  | runStart
  | updateSteps
  | runIncremental
  | runStop
  | runCheckTimed
  | sandboxClose
  | assembleResult
deriving DecidableEq, Repr

/-- The trace of `compare_server_to_full` (runner.py lines 213-245),
transcribing its statements in source order: the timed full check sits
inside the `with` block (lines 232-234 are indented under line 217), and
only the result assembly (lines 239-245) follows the block. -/
def compareServerToFullTrace : List PEvent :=
  [.sandboxOpen, .runStart, .updateSteps, .runIncremental, .runStop,
   .runCheckTimed, .sandboxClose, .assembleResult]

/-- The result assembly of `compare_server_to_full` (runner.py lines
239-245), given the outputs of the session calls: `discrepancy` is `None`
exactly when `incremental_check_output == full_check_output`, else the
`InconsistentOutput` holding both lists as they are. -/
def compare_server_to_full (incremental_update_logs : List ProfileRecord)
    (cold_start_log : ProfileRecord)
    (incremental_check_output full_check_output : List PyreError)
    (full_check_time : Int) : ResultComparison :=
  let discrepancy : Option InconsistentOutput :=
    if incremental_check_output = full_check_output then
      none
    else
      some { full_check_output := full_check_output,
             incremental_check_output := incremental_check_output }
  { discrepancy := discrepancy,
    full_check_time := full_check_time,
    profile_logs := { incremental_update_logs := incremental_update_logs,
                      cold_start_log := cold_start_log } }

/-- A sample checker error used as concrete input by witnesses. -/
def sampleError : PyreError :=
  { line := 1, column := 2, path := .str "a.py", description := .str "x" }

/-- The only exception `int(...)` can raise on a `PyValue` is `ValueError`. -/
theorem pyInt_error_eq (v : PyValue) (e : PyExc) (h : pyInt v = .error e) :
    e = .valueError := by
  cases v with
  | int n => exact absurd h (by simp [pyInt])
  | str s =>
    simp only [pyInt] at h
    cases hs : strToInt s <;> rw [hs] at h
    · exact (Except.error.inj h).symm
    · exact Except.noConfusion h

/-! ### Claim theorems -/

/-- C1: in the result of `compare_server_to_full`, `discrepancy` is `none`
if and only if the incremental and full error sequences are element-wise
equal in order (structural equality, no sorting); whenever they differ,
`discrepancy` holds both sequences verbatim. -/
theorem c1_compare_discrepancy (logs : List ProfileRecord) (cold : ProfileRecord)
    (inc full : List PyreError) (t : Int) :
    ((compare_server_to_full logs cold inc full t).discrepancy = none ↔ inc = full) ∧
    (inc ≠ full →
      (compare_server_to_full logs cold inc full t).discrepancy =
        some { full_check_output := full, incremental_check_output := inc }) := by
  constructor
  · by_cases h : inc = full <;> simp [compare_server_to_full, h]
  · intro h
    simp [compare_server_to_full, h]

/-- C1 witness: a concrete unequal pair is recorded verbatim. -/
theorem c1_compare_discrepancy_witness :
    (compare_server_to_full [] [] [] [sampleError] 0).discrepancy =
      some { full_check_output := [sampleError], incremental_check_output := [] } :=
  (c1_compare_discrepancy [] [] [] [sampleError] 0).2 (by decide)

/-- C2 counterexample: in the trace of `compare_server_to_full` the timed
full check occurs before the sandbox scope closes, not after it as the
claim states. -/
theorem c2_full_check_order_counterexample :
    List.indexOf PEvent.runCheckTimed compareServerToFullTrace <
      List.indexOf PEvent.sandboxClose compareServerToFullTrace ∧
    ¬ (List.indexOf PEvent.sandboxClose compareServerToFullTrace <
        List.indexOf PEvent.runCheckTimed compareServerToFullTrace) := by
  decide

/-- C2 amended: each protocol step occurs exactly once, in the order
sandbox open, start, update steps, incremental check, stop, timed full
check — the full check still inside the sandbox scope — then sandbox
close, and only after that the comparison is assembled. -/
theorem c2_protocol_order :
    (∀ e : PEvent, compareServerToFullTrace.count e = 1) ∧
    List.indexOf PEvent.sandboxOpen compareServerToFullTrace <
      List.indexOf PEvent.runStart compareServerToFullTrace ∧
    List.indexOf PEvent.runStart compareServerToFullTrace <
      List.indexOf PEvent.updateSteps compareServerToFullTrace ∧
    List.indexOf PEvent.updateSteps compareServerToFullTrace <
      List.indexOf PEvent.runIncremental compareServerToFullTrace ∧
    List.indexOf PEvent.runIncremental compareServerToFullTrace <
      List.indexOf PEvent.runStop compareServerToFullTrace ∧
    List.indexOf PEvent.runStop compareServerToFullTrace <
      List.indexOf PEvent.runCheckTimed compareServerToFullTrace ∧
    List.indexOf PEvent.runCheckTimed compareServerToFullTrace <
      List.indexOf PEvent.sandboxClose compareServerToFullTrace ∧
    List.indexOf PEvent.sandboxClose compareServerToFullTrace <
      List.indexOf PEvent.assembleResult compareServerToFullTrace := by
  refine ⟨fun e => ?_, ?_, ?_, ?_, ?_, ?_, ?_, ?_⟩
  · cases e <;> decide
  all_goals decide

/-- C3: for `check()` and `incremental()`: exit code 0 yields the empty
error sequence without parsing standard output; exit code 1 parses
standard output as a JSON array mapped element-by-element in order into
records (a two-element array yields exactly the two records); any other
exit code is a fatal process error. -/
theorem c3_check_exit_codes (out : ProcessOutput)
    (arr : List (List (String × PyValue)))
    (a b : List (String × PyValue)) (e1 e2 : PyreError) :
    (out.return_code = 0 →
      PyreRunner.run_check out = .ok [] ∧ PyreRunner.run_incremental out = .ok []) ∧
    (out.return_code = 1 → out.stdout = some arr →
      PyreRunner.run_check out = mapFromJson arr ∧
      PyreRunner.run_incremental out = mapFromJson arr) ∧
    (out.return_code = 1 → out.stdout = some [a, b] →
      PyreError.from_json a = .ok e1 → PyreError.from_json b = .ok e2 →
      PyreRunner.run_check out = .ok [e1, e2] ∧
      PyreRunner.run_incremental out = .ok [e1, e2]) ∧
    (out.return_code ≠ 0 → out.return_code ≠ 1 →
      PyreRunner.run_check out = .error .fatalProcessError ∧
      PyreRunner.run_incremental out = .error .fatalProcessError) := by
  refine ⟨?_, ?_, ?_, ?_⟩
  · intro h0
    simp [PyreRunner.run_check, PyreRunner.run_incremental, runCheckOutput,
      checked_run, h0]
  · intro h1 hs
    simp [PyreRunner.run_check, PyreRunner.run_incremental, runCheckOutput,
      checked_run, h1, hs]
  · intro h1 hs ha hb
    simp [PyreRunner.run_check, PyreRunner.run_incremental, runCheckOutput,
      checked_run, h1, hs, mapFromJson, ha, hb]
  · intro h0 h1
    simp [PyreRunner.run_check, PyreRunner.run_incremental, runCheckOutput,
      checked_run, h0, h1]

/-- C3 witness: concrete runs at exit codes 0, 1 and 2. -/
theorem c3_check_exit_codes_witness :
    (PyreRunner.run_check { return_code := 0, stdout := none } = .ok [] ∧
      PyreRunner.run_incremental { return_code := 0, stdout := none } = .ok []) ∧
    (PyreRunner.run_check
        { return_code := 1,
          stdout := some [[("line", .int 1), ("column", .int 2),
                           ("path", .str "a.py"), ("description", .str "x")],
                          [("line", .int 3), ("column", .int 4),
                           ("path", .str "b.py"), ("description", .str "y")]] } =
      .ok [{ line := 1, column := 2, path := .str "a.py", description := .str "x" },
           { line := 3, column := 4, path := .str "b.py", description := .str "y" }]) ∧
    (PyreRunner.run_check { return_code := 2, stdout := none } =
      .error .fatalProcessError) := by
  refine ⟨(c3_check_exit_codes { return_code := 0, stdout := none } [] [] [] sampleError sampleError).1 rfl, ?_, ?_⟩
  · exact ((c3_check_exit_codes _
      [[("line", .int 1), ("column", .int 2), ("path", .str "a.py"), ("description", .str "x")],
       [("line", .int 3), ("column", .int 4), ("path", .str "b.py"), ("description", .str "y")]]
      [("line", .int 1), ("column", .int 2), ("path", .str "a.py"), ("description", .str "x")]
      [("line", .int 3), ("column", .int 4), ("path", .str "b.py"), ("description", .str "y")]
      { line := 1, column := 2, path := .str "a.py", description := .str "x" }
      { line := 3, column := 4, path := .str "b.py", description := .str "y" }).2.2.1
      rfl rfl (by decide) (by decide)).1
  · exact ((c3_check_exit_codes { return_code := 2, stdout := none } [] [] []
      sampleError sampleError).2.2.2 (by decide) (by decide)).1

/-- C4 counterexample: on the input `{"line": "abc"}` the key `"column"`
(like `"path"` and `"description"`) is absent, yet `from_json` raises the
plain `ValueError` of `int("abc")` — evaluated before the missing key is
ever looked up — and not the malformed-output error. -/
theorem c4_missing_key_counterexample :
    List.lookup "column" [("line", PyValue.str "abc")] = none ∧
    PyreError.from_json [("line", PyValue.str "abc")] = .error .valueError ∧
    isMalformed (PyreError.from_json [("line", PyValue.str "abc")]) = false := by
  decide

/-- C4 amended: `from_json` on a mapping holding all four keys as in the
example yields exactly the four fields; and whenever any of the four keys
is absent, provided every `line`/`column` value that is present converts
to an int, it raises the malformed-output error (never a default-filled
record). -/
theorem c4_from_json_missing_key (d : List (String × PyValue)) :
    (PyreError.from_json
        [("line", .int 1), ("column", .int 2),
         ("path", .str "a.py"), ("description", .str "x")] =
      .ok { line := 1, column := 2, path := .str "a.py", description := .str "x" }) ∧
    ((d.lookup "line" = none ∨ d.lookup "column" = none ∨
      d.lookup "path" = none ∨ d.lookup "description" = none) →
     (∀ v, d.lookup "line" = some v → ∃ n, pyInt v = .ok n) →
     (∀ v, d.lookup "column" = some v → ∃ n, pyInt v = .ok n) →
     ∃ k, PyreError.from_json d = .error (.malformedPyreOutput k)) := by
  refine ⟨by decide, ?_⟩
  intro hmiss hline hcol
  rcases hl : d.lookup "line" with _ | lv
  · exact ⟨"line", by simp [PyreError.from_json, fromJsonBody, lookupPy, hl]⟩
  · obtain ⟨ln, hln⟩ := hline lv hl
    rcases hc : d.lookup "column" with _ | cv
    · exact ⟨"column", by simp [PyreError.from_json, fromJsonBody, lookupPy, hl, hln, hc]⟩
    · obtain ⟨cn, hcn⟩ := hcol cv hc
      rcases hp : d.lookup "path" with _ | pv
      · exact ⟨"path",
          by simp [PyreError.from_json, fromJsonBody, lookupPy, hl, hln, hc, hcn, hp]⟩
      · rcases hd : d.lookup "description" with _ | dv
        · exact ⟨"description",
            by simp [PyreError.from_json, fromJsonBody, lookupPy, hl, hln, hc, hcn, hp, hd]⟩
        · rcases hmiss with h | h | h | h <;>
            simp [hl, hc, hp, hd] at h

/-- C4 witness: a mapping holding only an int-valued `"line"` raises the
malformed-output error. -/
theorem c4_from_json_missing_key_witness :
    ∃ k, PyreError.from_json [("line", PyValue.int 1)] =
      .error (.malformedPyreOutput k) :=
  (c4_from_json_missing_key [("line", PyValue.int 1)]).2
    (by decide)
    (fun v hv => by
      rw [show List.lookup "line" [("line", PyValue.int 1)] = some (PyValue.int 1) from rfl] at hv
      cases Option.some.inj hv
      exact ⟨1, rfl⟩)
    (fun v hv => by
      rw [show List.lookup "column" [("line", PyValue.int 1)] = none from rfl] at hv
      cases hv)

/-- C10: `from_json` converts only a missing-key failure into the
malformed-output error; an integer-valued string for `line`/`column` is
accepted through the int conversion; an input with all four keys but a
non-integer-convertible `line` or `column` raises the plain `ValueError`,
not the malformed-output error. -/
theorem c10_from_json_conversion (d : List (String × PyValue))
    (lv cv pv dv : PyValue) :
    (PyreError.from_json
        [("line", .str "1"), ("column", .str "2"),
         ("path", .str "a.py"), ("description", .str "x")] =
      .ok { line := 1, column := 2, path := .str "a.py", description := .str "x" }) ∧
    (∀ k, PyreError.from_json d = .error (.malformedPyreOutput k) →
      d.lookup "line" = none ∨ d.lookup "column" = none ∨
      d.lookup "path" = none ∨ d.lookup "description" = none) ∧
    (d.lookup "line" = some lv → d.lookup "column" = some cv →
      d.lookup "path" = some pv → d.lookup "description" = some dv →
      (pyInt lv = .error .valueError ∨ pyInt cv = .error .valueError) →
      PyreError.from_json d = .error .valueError ∧
      isMalformed (PyreError.from_json d) = false) := by
  refine ⟨by decide, ?_, ?_⟩
  · intro k hk
    by_contra hall
    push_neg at hall
    obtain ⟨h1, h2, h3, h4⟩ := hall
    rcases hl : d.lookup "line" with _ | lv'
    · exact h1 hl
    rcases hpl : pyInt lv' with e | ln
    · cases pyInt_error_eq lv' e hpl
      have hfj : PyreError.from_json d = .error .valueError := by
        simp [PyreError.from_json, fromJsonBody, lookupPy, hl, hpl]
      rw [hfj] at hk
      exact PyExc.noConfusion (Except.error.inj hk)
    rcases hc : d.lookup "column" with _ | cv'
    · exact h2 hc
    rcases hpc : pyInt cv' with e | cn
    · cases pyInt_error_eq cv' e hpc
      have hfj : PyreError.from_json d = .error .valueError := by
        simp [PyreError.from_json, fromJsonBody, lookupPy, hl, hpl, hc, hpc]
      rw [hfj] at hk
      exact PyExc.noConfusion (Except.error.inj hk)
    rcases hp : d.lookup "path" with _ | pv'
    · exact h3 hp
    rcases hd : d.lookup "description" with _ | dv'
    · exact h4 hd
    simp [PyreError.from_json, fromJsonBody, lookupPy, hl, hpl, hc, hpc, hp, hd] at hk
  · intro hl hc hp hd hbad
    rcases hbad with hbad | hbad
    · constructor <;>
        simp [PyreError.from_json, fromJsonBody, lookupPy, isMalformed, hl, hbad]
    · rcases hpl : pyInt lv with e | ln
      · cases pyInt_error_eq lv e hpl
        constructor <;>
          simp [PyreError.from_json, fromJsonBody, lookupPy, isMalformed, hl, hpl]
      · constructor <;>
          simp [PyreError.from_json, fromJsonBody, lookupPy, isMalformed,
            hl, hpl, hc, hbad]

/-- C10 witness: `{"line": "1", "column": "2", ...}` is accepted with the
converted ints, and a non-convertible `line` with all four keys present
raises `ValueError`, which is not the malformed-output error. -/
theorem c10_from_json_conversion_witness :
    (PyreError.from_json
        [("line", .str "1"), ("column", .str "2"),
         ("path", .str "a.py"), ("description", .str "x")] =
      .ok { line := 1, column := 2, path := .str "a.py", description := .str "x" }) ∧
    (PyreError.from_json
        [("line", .str "abc"), ("column", .int 2),
         ("path", .str "a.py"), ("description", .str "x")] =
      .error .valueError) := by
  refine ⟨(c10_from_json_conversion [] (.int 0) (.int 0) (.int 0) (.int 0)).1, ?_⟩
  exact ((c10_from_json_conversion
      [("line", .str "abc"), ("column", .int 2),
       ("path", .str "a.py"), ("description", .str "x")]
      (.str "abc") (.int 2) (.str "a.py") (.str "x")).2.2
    rfl rfl rfl rfl (Or.inl (by decide))).1

/-- The `"total"` fields of a record sequence, each looked up as the sum in
`total_of_totals` does, propagating the first `KeyError`. -/
def totalsOf : List ProfileRecord → Except PyExc (List Int)
  | [] => .ok []
  | r :: rs =>
    match lookupTotal r with
    | .error e => .error e
    | .ok t =>
      match totalsOf rs with
      | .error e => .error e
      | .ok ts => .ok (t :: ts)

/-- The fold inside `total_of_totals`, generalized over the accumulator:
when every record has a `"total"`, it adds their sum. -/
theorem totals_fold_ok (logs : List ProfileRecord) (ts : List Int) (acc : Int)
    (h : totalsOf logs = .ok ts) :
    sumTotals acc logs = .ok (acc + ts.sum) := by
  induction logs generalizing ts acc with
  | nil =>
    simp only [totalsOf] at h
    cases Except.ok.inj h
    simp [sumTotals]
  | cons r rs ih =>
    simp only [totalsOf] at h
    cases hr : lookupTotal r <;> rw [hr] at h
    · exact Except.noConfusion h
    case ok t =>
      cases hrs : totalsOf rs <;> rw [hrs] at h
      · exact Except.noConfusion h
      case ok ts' =>
        cases Except.ok.inj h
        rw [sumTotals, hr]
        show sumTotals (acc + t) rs = Except.ok (acc + (t :: ts').sum)
        rw [ih ts' (acc + t) hrs]
        simp [add_assoc]

/-- The fold inside `total_of_totals`, generalized over the accumulator:
a record lacking `"total"` makes it raise `KeyError "total"`. -/
theorem totals_fold_missing (logs : List ProfileRecord) (acc : Int)
    (h : ∃ r ∈ logs, r.lookup "total" = none) :
    sumTotals acc logs = .error (.keyError "total") := by
  induction logs generalizing acc with
  | nil => obtain ⟨r, hr, _⟩ := h; exact absurd hr (List.not_mem_nil r)
  | cons r rs ih =>
    rw [sumTotals]
    cases hr : lookupTotal r
    case error e =>
      have : e = PyExc.keyError "total" := by
        simp only [lookupTotal] at hr
        cases hl : r.lookup "total" <;> rw [hl] at hr
        · exact (Except.error.inj hr).symm
        · exact Except.noConfusion hr
      rw [this]
    case ok t =>
      obtain ⟨r', hr', hnone⟩ := h
      rcases List.mem_cons.mp hr' with rfl | hmem
      · simp only [lookupTotal, hnone] at hr
        exact Except.noConfusion hr
      · exact ih (acc + t) ⟨r', hmem, hnone⟩

/-- C5: `total_of_totals()` is the sum of the `"total"` field over all
records of `incremental_update_logs`; it is 0 for an empty sequence; and a
record lacking `"total"` makes the call raise the lookup `KeyError`, not
treat the record as zero. -/
theorem c5_total_of_totals (pl : ProfileLogs) (ts : List Int) :
    (pl.incremental_update_logs = [] → pl.total_of_totals = .ok 0) ∧
    (totalsOf pl.incremental_update_logs = .ok ts →
      pl.total_of_totals = .ok ts.sum) ∧
    ((∃ r ∈ pl.incremental_update_logs, r.lookup "total" = none) →
      pl.total_of_totals = .error (.keyError "total")) := by
  refine ⟨?_, ?_, ?_⟩
  · intro h
    simp [ProfileLogs.total_of_totals, h, sumTotals]
  · intro h
    have := totals_fold_ok pl.incremental_update_logs ts 0 h
    rw [zero_add] at this
    exact this
  · intro h
    exact totals_fold_missing pl.incremental_update_logs 0 h

/-- C5 witness: two records with totals 3 and 4 sum to 7; a record lacking
`"total"` raises `KeyError`. -/
theorem c5_total_of_totals_witness :
    ProfileLogs.total_of_totals
      { incremental_update_logs := [[("total", 3)], [("total", 4)]],
        cold_start_log := [] } = .ok 7 ∧
    ProfileLogs.total_of_totals
      { incremental_update_logs := [[("total", 3)], [("other", 4)]],
        cold_start_log := [] } = .error (.keyError "total") := by
  constructor
  · exact (c5_total_of_totals
      { incremental_update_logs := [[("total", 3)], [("total", 4)]],
        cold_start_log := [] } [3, 4]).2.1 (by decide)
  · exact (c5_total_of_totals
      { incremental_update_logs := [[("total", 3)], [("other", 4)]],
        cold_start_log := [] } []).2.2
      ⟨[("other", 4)], by decide, by decide⟩

/-- C6: with discrepancy suppression, the serialized `ResultComparison`
never contains a `discrepancy` key, whatever the stored discrepancy; in
both modes it contains `full_check_time` equal to the stored time and
`incremental_check_time` equal to `total_of_totals()`; without
suppression, `discrepancy` is the string `"none"` when no discrepancy is
stored and otherwise the serialized pair of error arrays. -/
theorem c6_to_json (rc : ResultComparison) (t : Int)
    (h : rc.profile_logs.total_of_totals = .ok t) :
    (∃ fields, rc.to_json true = .ok fields ∧
      fields.lookup "discrepancy" = none ∧
      fields.lookup "full_check_time" = some (.num rc.full_check_time) ∧
      fields.lookup "incremental_check_time" = some (.num t)) ∧
    (∃ fields, rc.to_json false = .ok fields ∧
      fields.lookup "full_check_time" = some (.num rc.full_check_time) ∧
      fields.lookup "incremental_check_time" = some (.num t) ∧
      fields.lookup "discrepancy" =
        some (match rc.discrepancy with
              | none => Json.str "none"
              | some d => d.to_json)) := by
  have ht : rc.to_json true =
      .ok [("full_check_time", .num rc.full_check_time),
           ("incremental_check_time", .num t),
           ("profile_logs", rc.profile_logs.to_json)] := by
    unfold ResultComparison.to_json
    rw [h]
    rfl
  have hf : rc.to_json false =
      .ok [("full_check_time", .num rc.full_check_time),
           ("incremental_check_time", .num t),
           ("profile_logs", rc.profile_logs.to_json),
           ("discrepancy",
            match rc.discrepancy with
            | none => Json.str "none"
            | some d => d.to_json)] := by
    unfold ResultComparison.to_json
    rw [h]
    rfl
  exact ⟨⟨_, ht, rfl, rfl, rfl⟩, ⟨_, hf, rfl, rfl, rfl⟩⟩

/-- C6 witness: a comparison with an empty update log and a present
discrepancy, serialized in both modes. -/
theorem c6_to_json_witness :
    (∃ fields,
      ResultComparison.to_json
        { discrepancy := some { full_check_output := [sampleError],
                                incremental_check_output := [] },
          full_check_time := 5,
          profile_logs := { incremental_update_logs := [], cold_start_log := [] } }
        true = .ok fields ∧
      fields.lookup "discrepancy" = none ∧
      fields.lookup "full_check_time" = some (.num 5) ∧
      fields.lookup "incremental_check_time" = some (.num 0)) :=
  (c6_to_json
    { discrepancy := some { full_check_output := [sampleError],
                            incremental_check_output := [] },
      full_check_time := 5,
      profile_logs := { incremental_update_logs := [], cold_start_log := [] } }
    0 rfl).1

/-- What one run of the inner poll loop guarantees: no mutation step is
applied inside it; it fetches once more than it sleeps; the logs it hands
back are its last fetch, whose length exceeds `expected`; and the fetches
consume a leading segment of the response stream. -/
theorem pollLoop_spec (expected : Nat) (stream rem : List (List ProfileRecord))
    (logs : List ProfileRecord) (evs : List UEvent)
    (h : pollLoop expected stream = some (logs, rem, evs)) :
    applySteps evs = [] ∧
    (pollResults evs).length = sleepCount evs + 1 ∧
    (pollResults evs).getLast? = some logs ∧
    expected < logs.length ∧
    stream = pollResults evs ++ rem := by
  induction stream generalizing rem evs with
  | nil => cases h
  | cons p rest ih =>
    rw [pollLoop] at h
    by_cases hlen : expected < p.length
    · rw [if_pos hlen] at h
      simp only [Option.some.injEq, Prod.mk.injEq] at h
      obtain ⟨rfl, rfl, rfl⟩ := h
      refine ⟨rfl, ?_, rfl, hlen, rfl⟩
      simp [pollResults, sleepCount, List.countP_cons]
    · rw [if_neg hlen] at h
      cases hrec : pollLoop expected rest with
      | none => rw [hrec] at h; exact Option.noConfusion h
      | some val =>
        obtain ⟨logs', rem', evs'⟩ := val
        rw [hrec] at h
        simp only [Option.some.injEq, Prod.mk.injEq] at h
        obtain ⟨rfl, rfl, rfl⟩ := h
        obtain ⟨ha, hl, hlast, hexp, hstream⟩ := ih rem' evs' hrec
        have hpr : pollResults (UEvent.poll p :: UEvent.sleepOne :: evs') =
            p :: pollResults evs' := by
          simp [pollResults]
        have hne : pollResults evs' ≠ [] := by
          intro hnil
          rw [hnil] at hl
          simp at hl
        refine ⟨?_, ?_, ?_, hexp, ?_⟩
        · simpa [applySteps] using ha
        · have hsl : sleepCount (UEvent.poll p :: UEvent.sleepOne :: evs') =
              sleepCount evs' + 1 := by
            simp [sleepCount, List.countP_cons]
          rw [hpr, hsl, List.length_cons, hl]
        · rw [hpr, show p :: pollResults evs' = [p] ++ pollResults evs' from rfl,
            List.getLast?_append_of_ne_nil [p] hne]
          exact hlast
        · rw [hpr, hstream]
          simp

/-- What `updateGo` guarantees from step index `expected` with `steps`
steps left, generalizing `c7_update_driver` for the induction. -/
theorem updateGo_spec (steps expected : Nat) (stream : List (List ProfileRecord))
    (logs0 finalLogs : List ProfileRecord) (evs : List UEvent)
    (h : updateGo expected steps stream logs0 = some (finalLogs, evs)) :
    applySteps evs = List.range' expected steps ∧
    (pollResults evs).length = sleepCount evs + steps ∧
    (0 < steps → (pollResults evs).getLast? = some finalLogs ∧
      expected + steps ≤ finalLogs.length) ∧
    (steps = 0 → finalLogs = logs0 ∧ evs = []) ∧
    ∃ rest, stream = pollResults evs ++ rest := by
  induction steps generalizing expected stream logs0 finalLogs evs with
  | zero =>
    rw [updateGo] at h
    simp only [Option.some.injEq, Prod.mk.injEq] at h
    obtain ⟨rfl, rfl⟩ := h
    exact ⟨by simp [applySteps], by simp [pollResults, sleepCount],
      fun hn => absurd hn (by omega), fun _ => ⟨rfl, rfl⟩,
      ⟨stream, by simp [pollResults]⟩⟩
  | succ steps' ih =>
    rw [updateGo] at h
    cases hp : pollLoop expected stream with
    | none => rw [hp] at h; exact Option.noConfusion h
    | some val =>
      obtain ⟨newLogs, rem, evsp⟩ := val
      rw [hp] at h
      have h2 : (match updateGo (expected + 1) steps' rem newLogs with
          | none => none
          | some (finalLogs, evs') =>
            some (finalLogs, (UEvent.applyStep expected :: evsp) ++ evs')) =
          some (finalLogs, evs) := h
      clear h
      cases hg : updateGo (expected + 1) steps' rem newLogs with
      | none => rw [hg] at h2; exact Option.noConfusion h2
      | some val2 =>
        obtain ⟨fl, evs'⟩ := val2
        rw [hg] at h2
        simp only [Option.some.injEq, Prod.mk.injEq] at h2
        obtain ⟨rfl, rfl⟩ := h2
        obtain ⟨hpa, hplen, hplast, hpexp, hpstream⟩ :=
          pollLoop_spec expected stream rem newLogs evsp hp
        obtain ⟨ha', hlen', hlast', hzero', rest', hrest'⟩ :=
          ih (expected + 1) rem newLogs fl evs' hg
        have hevs : (UEvent.applyStep expected :: evsp) ++ evs' =
            UEvent.applyStep expected :: (evsp ++ evs') := rfl
        have hpr : pollResults ((UEvent.applyStep expected :: evsp) ++ evs') =
            pollResults evsp ++ pollResults evs' := by
          simp [pollResults]
        have hslp : sleepCount ((UEvent.applyStep expected :: evsp) ++ evs') =
            sleepCount evsp + sleepCount evs' := by
          simp [sleepCount, List.countP_cons]
        refine ⟨?_, ?_, ?_, ?_, ?_⟩
        · rw [hevs]
          have happ : applySteps (UEvent.applyStep expected :: (evsp ++ evs')) =
              expected :: (applySteps evsp ++ applySteps evs') := by
            simp [applySteps, List.filterMap_cons, List.filterMap_append]
          rw [happ, hpa, ha', List.nil_append, List.range'_succ]
        · rw [hpr, hslp, List.length_append, hplen, hlen']
          omega
        · intro _
          rcases Nat.eq_zero_or_pos steps' with hs0 | hspos
          · obtain ⟨rfl, rfl⟩ := hzero' hs0
            subst hs0
            rw [hpr]
            simp only [pollResults, List.filterMap_nil, List.append_nil]
            exact ⟨hplast, by omega⟩
          · obtain ⟨hl1, hl2⟩ := hlast' hspos
            have hne : pollResults evs' ≠ [] := by
              intro hnil
              rw [hnil] at hlen'
              simp at hlen'
              omega
            rw [hpr, List.getLast?_append_of_ne_nil _ hne]
            exact ⟨hl1, by omega⟩
        · intro hcon
          cases hcon
        · refine ⟨rest', ?_⟩
          rw [hpr, hpstream, hrest']
          simp

/-- C7: the Update Driver processes the mutation steps strictly in order
with an expected count starting at 0 (the trace applies steps
`0, 1, ..., n-1` in that order); each step fetches the
`incremental_updates` sequence once per advance plus once per sleep (it
sleeps exactly between the polls that did not yet exceed the expected
count); the fetches consume the endpoint's responses in order; and the
return value is the final fetched profile sequence, whose length exceeds
the last expected count. -/
theorem c7_update_driver (n : Nat) (stream : List (List ProfileRecord))
    (finalLogs : List ProfileRecord) (evs : List UEvent)
    (h : PyreRunner.update n stream = some (finalLogs, evs)) :
    applySteps evs = List.range n ∧
    (pollResults evs).length = sleepCount evs + n ∧
    (0 < n → (pollResults evs).getLast? = some finalLogs ∧ n ≤ finalLogs.length) ∧
    (n = 0 → finalLogs = [] ∧ evs = []) ∧
    ∃ rest, stream = pollResults evs ++ rest := by
  obtain ⟨ha, hlen, hlast, hzero, hrest⟩ :=
    updateGo_spec n 0 stream [] finalLogs evs h
  refine ⟨?_, hlen, ?_, hzero, hrest⟩
  · rw [ha, List.range_eq_range']
  · intro hn
    obtain ⟨h1, h2⟩ := hlast hn
    exact ⟨h1, by omega⟩

/-- C7 witness: one step, one poll whose single record makes the length
exceed the expected count 0. -/
theorem c7_update_driver_witness :
    applySteps [UEvent.applyStep 0, UEvent.poll [[("total", 1)]]] = List.range 1 ∧
    (pollResults [UEvent.applyStep 0, UEvent.poll [[("total", 1)]]]).length =
      sleepCount [UEvent.applyStep 0, UEvent.poll [[("total", 1)]]] + 1 :=
  ⟨(c7_update_driver 1 [[[("total", 1)]]] [[("total", 1)]]
      [UEvent.applyStep 0, UEvent.poll [[("total", 1)]]] (by decide)).1,
   (c7_update_driver 1 [[[("total", 1)]]] [[("total", 1)]]
      [UEvent.applyStep 0, UEvent.poll [[("total", 1)]]] (by decide)).2.1⟩

/-- The profile record of completed update `i` in the C8 scenario. -/
def c8rec (i : Int) : ProfileRecord := [("total", i)]

/-- The C8 scenario's successive responses of the `incremental_updates`
endpoint: lengths 0, 0, 1, 1, 2, 3. -/
def c8stream : List (List ProfileRecord) :=
  [[], [], [c8rec 0], [c8rec 0], [c8rec 0, c8rec 1], [c8rec 0, c8rec 1, c8rec 2]]

/-- The event trace the driver produces on the C8 scenario. -/
def c8trace : List UEvent :=
  [.applyStep 0, .poll [], .sleepOne, .poll [], .sleepOne, .poll [c8rec 0],
   .applyStep 1, .poll [c8rec 0], .sleepOne, .poll [c8rec 0, c8rec 1],
   .applyStep 2, .poll [c8rec 0, c8rec 1, c8rec 2]]

/-- C8 counterexample: with 3 mutation steps and successive poll lengths
`[0, 0, 1, 1, 2, 3]`, the driver performs 6 polls in total, which is 3 —
not 2 — beyond the minimum of one poll per step. -/
theorem c8_extra_polls_counterexample :
    (PyreRunner.update 3 c8stream).map (fun r => (pollResults r.2).length) =
      some 6 ∧
    ¬ (6 = 3 + 2) := by
  decide

/-- C8 amended: with 3 mutation steps and successive poll lengths
`[0, 0, 1, 1, 2, 3]`, the driver performs exactly 3 polls beyond the
minimum of one per step (two extra on the first step, one on the second,
none on the third, matching the 3 sleeps) and returns the 3-element log
sequence of the final poll. -/
theorem c8_update_concrete :
    PyreRunner.update 3 c8stream =
      some ([c8rec 0, c8rec 1, c8rec 2], c8trace) ∧
    (pollResults c8trace).length = 3 + 3 ∧
    sleepCount c8trace = 3 ∧
    [c8rec 0, c8rec 1, c8rec 2].length = 3 := by
  decide

/-- C9: `run_start` issues the restart command — carrying the
`--no-saved-state --enable-profiling` flags and the caller-supplied
start-time options — through `checked_run` with its default expected-code
set `{0}`: any nonzero exit is fatal and nothing further is issued; on
exit 0 it then fetches the `cold_start_phases` profile record and returns
it. -/
theorem c9_run_start (invocation a b : String) (startOut : ProcessOutput)
    (coldRec : ProfileRecord) :
    (pyre_start_command invocation a b =
      rstrip (invocation ++ " " ++ a ++ " " ++ "--no-saved-state --enable-profiling " ++
        "restart " ++ b)) ∧
    (startOut.return_code = 0 →
      PyreRunner.run_start invocation a b startOut coldRec =
        ([pyre_start_command invocation a b,
          pyre_profile_command invocation "cold_start_phases"], .ok coldRec)) ∧
    (startOut.return_code ≠ 0 →
      PyreRunner.run_start invocation a b startOut coldRec =
        ([pyre_start_command invocation a b], .error .fatalProcessError)) := by
  refine ⟨rfl, ?_, ?_⟩
  · intro h0
    simp [PyreRunner.run_start, checked_run_default, checked_run, h0]
  · intro h0
    simp [PyreRunner.run_start, checked_run_default, checked_run, h0]

/-- C9 witness: a concrete successful and a concrete failing start. -/
theorem c9_run_start_witness :
    (PyreRunner.run_start "pyre" "" "" { return_code := 0, stdout := none } [] =
      (["pyre  --no-saved-state --enable-profiling restart",
        "pyre profile --output=cold_start_phases"], .ok [])) ∧
    (PyreRunner.run_start "pyre" "" "" { return_code := 7, stdout := none } [] =
      (["pyre  --no-saved-state --enable-profiling restart"],
        .error .fatalProcessError)) := by
  constructor
  · rw [(c9_run_start "pyre" "" "" { return_code := 0, stdout := none } []).2.1 rfl]
    rfl
  · rw [(c9_run_start "pyre" "" "" { return_code := 7, stdout := none } []).2.2
      (by decide)]
    rfl

end PyreRunnerSpec
